import Mathlib

/-!
Verification of the air-hockey simulation core.

The repository ships several revisions of the same components concatenated in
its source files; `src/components/GameCanvas.tsx` contains two revisions of the
`GameCanvas` component.  Namespace `V1` below embeds the first revision
(`resolvePaddleCollision`, `checkCircleCollision`, `constrainEntity`,
`updatePhysics`, `resetPositions`), namespace `V2` the second revision
(`resolvePaddleCollision` with the explicit impulse formula, and the
target-selection logic of `updateAI`).  `src/services/geminiService.ts` and
`src/unnamed/part_001` contain the two revisions of `fetchAIStrategy`,
embedded as `GeminiA` and `GeminiB`.

Numbers are modelled by the reals.  JavaScript produces `NaN` when a collision
normal is computed from a zero distance (`0/0`); those code paths are embedded
as `Option`-valued functions that return `none` exactly where the JavaScript
computation produces `NaN`, so that the degeneracy is observable.  The
`setTimeout` reset sequence is split into its synchronous part
(`resetPositions`) and the delayed callback (`serveRelease rand`), with the
`Math.random()` sample passed in as the parameter `rand`.
-/

namespace AirHockey

noncomputable section

open Classical

/-- Constants from `src/constants.ts`. -/
def CANVAS_WIDTH : ℝ := 800

def CANVAS_HEIGHT : ℝ := 1200

def PUCK_RADIUS : ℝ := 28

def PADDLE_RADIUS : ℝ := 50

def GOAL_WIDTH : ℝ := 280

def FRICTION : ℝ := 0.995

def WALL_ELASTICITY : ℝ := 0.85

def PADDLE_MASS : ℝ := 300

def PUCK_MASS : ℝ := 15

def MAX_SPEED : ℝ := 40

/-- Constant `POST_RADIUS` of the first `GameCanvas` revision. -/
def POST_RADIUS : ℝ := 15

/-- Constant `GOAL_LEFT_X = (CANVAS_WIDTH - GOAL_WIDTH) / 2`. -/
def GOAL_LEFT_X : ℝ := (CANVAS_WIDTH - GOAL_WIDTH) / 2

/-- Constant `GOAL_RIGHT_X = (CANVAS_WIDTH + GOAL_WIDTH) / 2`. -/
def GOAL_RIGHT_X : ℝ := (CANVAS_WIDTH + GOAL_WIDTH) / 2

/-- Delay in milliseconds before the puck is served again (first revision). -/
def RESET_DELAY_MS : ℕ := 1200

/-- Interface `Vector2D` of `src/types.ts`. -/
@[ext]
structure Vector2D where
  x : ℝ
  y : ℝ

/-- Interface `Entity` of `src/types.ts` (`Entity extends Vector2D`). -/
@[ext]
structure Entity extends Vector2D where
  radius : ℝ
  velocity : Vector2D
  mass : ℝ

/-- Which side scored, the `'player' | 'ai'` tag of `onScoreUpdate`. -/
inductive Scorer where
  | player
  | ai
deriving DecidableEq

/-- One invocation of the `onScoreUpdate(playerScore, aiScore, scorer)` callback. -/
structure ScoreEvent where
  playerScore : ℕ
  aiScore : ℕ
  scorer : Scorer
deriving DecidableEq

/-- Mutable simulation state of the `GameCanvas` component: the three entity
refs, the `isResettingRef` flag, the pointer-input target ref and the two
score counters read from the `gameState` prop. -/
structure World where
  puck : Entity
  player : Entity
  ai : Entity
  resetting : Bool
  input : Option Vector2D
  scorePlayer : ℕ
  scoreAi : ℕ

/-- Helper `dist(p1, p2)` of the first `GameCanvas` revision. -/
def dist (p1 p2 : Vector2D) : ℝ :=
  Real.sqrt ((p2.x - p1.x) ^ 2 + (p2.y - p1.y) ^ 2)

/-- Helper `clamp(val, min, max) = Math.min(Math.max(val, min), max)`. -/
def clamp (val lo hi : ℝ) : ℝ := min (max val lo) hi

/-- Helper `len(v) = Math.sqrt(v.x * v.x + v.y * v.y)`. -/
def len (v : Vector2D) : ℝ := Real.sqrt (v.x * v.x + v.y * v.y)

namespace V1

/-- Value of `(Math.cos θ, Math.sin θ)` for `θ = Math.atan2 dy dx`: this equals
`(dx / √(dx² + dy²), dy / √(dx² + dy²))` whenever `(dx, dy) ≠ (0, 0)`, and
`(cos 0, sin 0) = (1, 0)` at the origin, because `Math.atan2(0, 0) = 0`. -/
def normalOf (dx dy : ℝ) : ℝ × ℝ :=
  if dx = 0 ∧ dy = 0 then (1, 0)
  else (dx / Real.sqrt (dx * dx + dy * dy), dy / Real.sqrt (dx * dx + dy * dy))

/-- The local `rotate(v, θ)` of `resolvePaddleCollision`, written in terms of
`c = cos θ` and `s = sin θ`:
`rotate(v, θ) = (v.x cos θ + v.y sin θ, -v.x sin θ + v.y cos θ)`.
A rotation by `-θ` is `rotateCS v c (-s)`. -/
def rotateCS (v : Vector2D) (c s : ℝ) : Vector2D :=
  ⟨v.x * c + v.y * s, -v.x * s + v.y * c⟩

/-- Function `resolvePaddleCollision(paddle, puck)` of the first `GameCanvas`
revision (one-dimensional elastic collision along the contact normal in the
rotated frame, with a minimum "pop" speed).  Only the puck is returned because
the function never writes to the paddle.  The guard `speed || 1` of the
boost factor is the inner `if speed = 0 then 1 else speed`. -/
def resolvePaddleCollision (paddle puck : Entity) : Entity :=
  let d := dist puck.toVector2D paddle.toVector2D
  let minDist := puck.radius + paddle.radius
  if d < minDist then
    let n := normalOf (puck.x - paddle.x) (puck.y - paddle.y)
    let c := n.1
    let s := n.2
    let overlap := minDist - d
    let v1 := rotateCS paddle.velocity c s
    let v2 := rotateCS puck.velocity c s
    let v2FinalX := ((puck.mass - paddle.mass) * v2.x + 2 * paddle.mass * v1.x)
        / (paddle.mass + puck.mass)
    let v2Final := rotateCS ⟨v2FinalX, v2.y⟩ c (-s)
    let speed := len v2Final
    let vOut :=
      if speed < 5 then
        ⟨v2Final.x * (5 / (if speed = 0 then 1 else speed)),
         v2Final.y * (5 / (if speed = 0 then 1 else speed))⟩
      else v2Final
    { puck with
        x := puck.x + c * (overlap + 0.5)
        y := puck.y + s * (overlap + 0.5)
        velocity := vOut }
  else puck

/-- Function `checkCircleCollision(puck, cx, cy, r)` of the first `GameCanvas`
revision.  When the circles overlap with `d = 0` the JavaScript code computes
`nx = dx / d = 0 / 0 = NaN` and poisons position and velocity; that case is
returned as `none`. -/
def checkCircleCollision (p : Entity) (cx cy r : ℝ) : Option Entity :=
  let dx := p.x - cx
  let dy := p.y - cy
  let d := Real.sqrt (dx * dx + dy * dy)
  let minDist := p.radius + r
  if d < minDist then
    if d = 0 then none
    else
      let nx := dx / d
      let ny := dy / d
      let overlap := minDist - d
      let dot := p.velocity.x * nx + p.velocity.y * ny
      some { p with
        x := p.x + nx * (overlap + 0.1)
        y := p.y + ny * (overlap + 0.1)
        velocity := ⟨(p.velocity.x - 2 * dot * nx) * WALL_ELASTICITY,
                     (p.velocity.y - 2 * dot * ny) * WALL_ELASTICITY⟩ }
  else some p

/-- Function `constrainEntity(e, bounds)` of the first `GameCanvas` revision. -/
def constrainEntity (e : Entity) (minY maxY : ℝ) : Entity :=
  { e with
      x := clamp e.x e.radius (CANVAS_WIDTH - e.radius)
      y := clamp e.y (minY + e.radius) (maxY - e.radius) }

/-- Step 1 of `updatePhysics`: `puck.x += puck.velocity.x * dt` and likewise
for `y`. -/
def movePuck (dt : ℝ) (p : Entity) : Entity :=
  { p with x := p.x + p.velocity.x * dt, y := p.y + p.velocity.y * dt }

/-- Time-based friction of `updatePhysics`:
`velocity *= Math.pow(FRICTION, dt)` (real exponentiation). -/
def frictionDecay (dt : ℝ) (v : Vector2D) : Vector2D :=
  ⟨v.x * FRICTION ^ dt, v.y * FRICTION ^ dt⟩

/-- Stop-if-very-slow step of `updatePhysics`: each velocity component whose
absolute value is below `0.05` is zeroed, each axis independently. -/
def snapSlow (v : Vector2D) : Vector2D :=
  ⟨if |v.x| < 0.05 then 0 else v.x, if |v.y| < 0.05 then 0 else v.y⟩

/-- Max-speed clamp of `updatePhysics`: when `len v > MAX_SPEED` both
components are scaled by `MAX_SPEED / len v`. -/
def clampSpeed (v : Vector2D) : Vector2D :=
  if len v > MAX_SPEED then
    ⟨v.x * (MAX_SPEED / len v), v.y * (MAX_SPEED / len v)⟩
  else v

/-- The puck part of steps 1 and the velocity post-processing of
`updatePhysics`: integrate position, then apply friction, the slow-speed snap
and the max-speed clamp to the velocity, in this order. -/
def integratePuck (dt : ℝ) (p : Entity) : Entity :=
  let p1 := movePuck dt p
  { p1 with velocity := clampSpeed (snapSlow (frictionDecay dt p1.velocity)) }

/-- Step 3 of `updatePhysics`, the strict wall constraints (left, right, top,
bottom, the last two only outside the goal mouth). -/
def wallBounce (p : Entity) : Entity :=
  let p1 :=
    if p.x < p.radius then
      { p with x := p.radius,
               velocity := ⟨|p.velocity.x| * WALL_ELASTICITY, p.velocity.y⟩ }
    else p
  let p2 :=
    if p1.x > CANVAS_WIDTH - p1.radius then
      { p1 with x := CANVAS_WIDTH - p1.radius,
                velocity := ⟨-|p1.velocity.x| * WALL_ELASTICITY, p1.velocity.y⟩ }
    else p1
  let p3 :=
    if p2.y < p2.radius ∧ (p2.x < GOAL_LEFT_X ∨ p2.x > GOAL_RIGHT_X) then
      { p2 with y := p2.radius,
                velocity := ⟨p2.velocity.x, |p2.velocity.y| * WALL_ELASTICITY⟩ }
    else p2
  if p3.y > CANVAS_HEIGHT - p3.radius ∧ (p3.x < GOAL_LEFT_X ∨ p3.x > GOAL_RIGHT_X) then
    { p3 with y := CANVAS_HEIGHT - p3.radius,
              velocity := ⟨p3.velocity.x, -|p3.velocity.y| * WALL_ELASTICITY⟩ }
  else p3

/-- Step 4 of `updatePhysics`: the four goal-post collisions in program
order. -/
def postsPass (p : Entity) : Option Entity :=
  (checkCircleCollision p GOAL_LEFT_X 0 POST_RADIUS).bind fun q1 =>
  (checkCircleCollision q1 GOAL_RIGHT_X 0 POST_RADIUS).bind fun q2 =>
  (checkCircleCollision q2 GOAL_LEFT_X CANVAS_HEIGHT POST_RADIUS).bind fun q3 =>
  checkCircleCollision q3 GOAL_RIGHT_X CANVAS_HEIGHT POST_RADIUS

/-- Synchronous part of `resetPositions(scorer)` of the first revision: raise
the resetting flag, zero all velocities, move the three entities to their
canonical start points, and set the input target to the player's reset
position (`{x: CANVAS_WIDTH / 2, y: CANVAS_HEIGHT - 150}`).  The goal overlay
text is visual only and not modelled. -/
def resetPositions (scorer : Scorer) (w : World) : World :=
  { w with
      resetting := true
      puck := { w.puck with x := CANVAS_WIDTH / 2, y := CANVAS_HEIGHT / 2,
                            velocity := ⟨0, 0⟩ }
      player := { w.player with x := CANVAS_WIDTH / 2, y := CANVAS_HEIGHT - 150,
                                velocity := ⟨0, 0⟩ }
      ai := { w.ai with x := CANVAS_WIDTH / 2, y := 150, velocity := ⟨0, 0⟩ }
      input := some ⟨CANVAS_WIDTH / 2, CANVAS_HEIGHT - 150⟩ }

/-- Delayed callback of `resetPositions` (runs `RESET_DELAY_MS` later): clear
the resetting flag and serve with `velocity = (rand * 6 - 3, dirY * 8)` where
`dirY = 1` when the scorer is the player and `-1` otherwise, and `rand` is the
`Math.random()` sample. -/
def serveRelease (scorer : Scorer) (rand : ℝ) (w : World) : World :=
  { w with
      resetting := false
      puck := { w.puck with velocity :=
        ⟨rand * 6 - 3, (if scorer = Scorer.player then (1 : ℝ) else -1) * 8⟩ } }

/-- Function `updatePhysics(dt)` of the first `GameCanvas` revision, acting on
the modelled state.  It returns the new state, the list of `onScoreUpdate`
invocations (emitted before `resetPositions` runs, as in the code), and the
boolean the function returns; `none` stands for a tick poisoned by a `NaN`
goal-post normal. -/
def updatePhysics (w : World) (dt : ℝ) : Option (World × List ScoreEvent × Bool) :=
  if w.resetting then some (w, [], false)
  else
    let p1 := integratePuck dt w.puck
    if p1.y < -p1.radius ∧ p1.x > GOAL_LEFT_X ∧ p1.x < GOAL_RIGHT_X then
      some (resetPositions Scorer.player { w with puck := p1 },
            [⟨w.scorePlayer + 1, w.scoreAi, Scorer.player⟩], true)
    else if p1.y > CANVAS_HEIGHT + p1.radius ∧ p1.x > GOAL_LEFT_X ∧ p1.x < GOAL_RIGHT_X then
      some (resetPositions Scorer.ai { w with puck := p1 },
            [⟨w.scorePlayer, w.scoreAi + 1, Scorer.ai⟩], true)
    else
      let p2 := wallBounce p1
      (postsPass p2).map fun p3 =>
        let player1 := constrainEntity w.player (CANVAS_HEIGHT / 2) CANVAS_HEIGHT
        let ai1 := constrainEntity w.ai 0 (CANVAS_HEIGHT / 2)
        let p4 := resolvePaddleCollision player1 p3
        let p5 := resolvePaddleCollision ai1 p4
        ({ w with puck := p5, player := player1, ai := ai1 }, [], false)

end V1

namespace V2

/-- Restitution constant `bounce = 1.15` of the second revision's
`resolvePaddleCollision` ("High performance bounce"). -/
def bounce : ℝ := 1.15

/-- Distance `Math.sqrt(dx * dx + dy * dy)` between the paddle and puck
centers, with `dx = pck.x - pdl.x`, `dy = pck.y - pdl.y`. -/
def distanceOf (pdl pck : Entity) : ℝ :=
  Real.sqrt ((pck.x - pdl.x) * (pck.x - pdl.x) + (pck.y - pdl.y) * (pck.y - pdl.y))

/-- Relative velocity along the contact normal,
`velAlongNormal = relativeVelocity.x * nx + relativeVelocity.y * ny`. -/
def velAlongNormal (pdl pck : Entity) : ℝ :=
  (pck.velocity.x - pdl.velocity.x) * ((pck.x - pdl.x) / distanceOf pdl pck) +
  (pck.velocity.y - pdl.velocity.y) * ((pck.y - pdl.y) / distanceOf pdl pck)

/-- Impulse scalar
`impulse = -(1 + bounce) * velAlongNormal / (1 / pdl.mass + 1 / pck.mass)`:
the relative normal speed scaled by the restitution sum and the reduced mass
of the pair. -/
def impulseOf (pdl pck : Entity) : ℝ :=
  -(1 + bounce) * velAlongNormal pdl pck / (1 / pdl.mass + 1 / pck.mass)

/-- Position correction of the second revision's `resolvePaddleCollision`:
`pck += n * (overlap + 1)` with `overlap = minDist - distance`. -/
def posCorrect (pdl pck : Entity) : Entity :=
  { pck with
      x := pck.x + (pck.x - pdl.x) / distanceOf pdl pck *
        (pdl.radius + pck.radius - distanceOf pdl pck + 1)
      y := pck.y + (pck.y - pdl.y) / distanceOf pdl pck *
        (pdl.radius + pck.radius - distanceOf pdl pck + 1) }

/-- Playability speed cap at the end of the second revision's
`resolvePaddleCollision`: rescale the velocity to `MAX_SPEED` when its norm
exceeds it.  (In the source the second write goes through the aliased outer
`puck.current` ref, which is the same object as `pck` at both call sites.) -/
def capMax (v : Vector2D) : Vector2D :=
  if len v > MAX_SPEED then ⟨v.x / len v * MAX_SPEED, v.y / len v * MAX_SPEED⟩
  else v

/-- Function `resolvePaddleCollision(pdl, pck)` of the second `GameCanvas`
revision.  Both entities are returned; the source never writes to `pdl`, so
the first component is always the unchanged paddle.  A zero distance inside
the overlap branch makes the JavaScript normal `0/0 = NaN`, returned here as
`none`. -/
def resolvePaddleCollision (pdl pck : Entity) : Option (Entity × Entity) :=
  if distanceOf pdl pck < pdl.radius + pck.radius then
    if distanceOf pdl pck = 0 then none
    else
      if 0 < velAlongNormal pdl pck then some (pdl, posCorrect pdl pck)
      else
        some (pdl,
          { posCorrect pdl pck with velocity :=
              (capMax ⟨pck.velocity.x + impulseOf pdl pck / pck.mass *
                  ((pck.x - pdl.x) / distanceOf pdl pck),
                pck.velocity.y + impulseOf pdl pck / pck.mass *
                  ((pck.y - pdl.y) / distanceOf pdl pck)⟩) })
  else some (pdl, pck)

/-- Target-selection logic of `updateAI` in the second `GameCanvas` revision
(the decision part, before the steering/integration movement code): in the
AI's half the strike target leads the puck horizontally by
`p.velocity.x * (aggression * 10)` and aims `20` below the puck, overridden by
the recovery anchor `(homeX, 100)` when the puck is more than `10` above the
paddle; in the player's half the paddle tracks `p.x` and holds a clamped
guard offset. -/
def updateAITarget (p a : Entity) (aggression : ℝ) : Vector2D :=
  let homeX := CANVAS_WIDTH / 2
  let homeY : ℝ := 200
  if p.y < CANVAS_HEIGHT / 2 then
    let prediction := aggression * 10
    let tx := p.x + p.velocity.x * prediction
    let ty := p.y + 20
    if p.y < a.y - 10 then ⟨homeX, 100⟩ else ⟨tx, ty⟩
  else
    let tx := p.x
    let offset := (p.y - CANVAS_HEIGHT / 2) * (aggression * 0.25)
    ⟨tx, clamp (homeY + offset) 100 (CANVAS_HEIGHT * 0.45)⟩

end V2

/-- Reading of claim C5, for comparison with `V2.resolvePaddleCollision`: the
impulse is applied split proportionally to each entity's inverse mass, so the
paddle recoils by `impulse / pdl.mass` along the normal while the puck gains
`impulse / pck.mass`.  Identical to the code otherwise. -/
def resolvePaddleCollisionClaim (pdl pck : Entity) : Option (Entity × Entity) :=
  if V2.distanceOf pdl pck < pdl.radius + pck.radius then
    if V2.distanceOf pdl pck = 0 then none
    else
      if 0 < V2.velAlongNormal pdl pck then some (pdl, V2.posCorrect pdl pck)
      else
        some
          ({ pdl with velocity :=
              ⟨pdl.velocity.x - V2.impulseOf pdl pck / pdl.mass *
                  ((pck.x - pdl.x) / V2.distanceOf pdl pck),
               pdl.velocity.y - V2.impulseOf pdl pck / pdl.mass *
                  ((pck.y - pdl.y) / V2.distanceOf pdl pck)⟩ },
           { V2.posCorrect pdl pck with velocity :=
              (V2.capMax ⟨pck.velocity.x + V2.impulseOf pdl pck / pck.mass *
                  ((pck.x - pdl.x) / V2.distanceOf pdl pck),
                pck.velocity.y + V2.impulseOf pdl pck / pck.mass *
                  ((pck.y - pdl.y) / V2.distanceOf pdl pck)⟩) })
  else some (pdl, pck)

/-- Reading of claim C8, for comparison with `V2.updateAITarget`: the strike
target is the puck's position plus the predictive lead
`velocity * (aggression * 10)` applied to both components, plus the small
vertical offset.  The recovery override and the defensive branch are as in the
code. -/
def updateAITargetClaim (p a : Entity) (aggression : ℝ) : Vector2D :=
  if p.y < CANVAS_HEIGHT / 2 then
    if p.y < a.y - 10 then ⟨CANVAS_WIDTH / 2, 100⟩
    else ⟨p.x + p.velocity.x * (aggression * 10),
          p.y + p.velocity.y * (aggression * 10) + 20⟩
  else V2.updateAITarget p a aggression

/-- Interface `GeminiResponse` of `src/types.ts`. -/
structure GeminiResponse where
  commentary : String
  aiSpeed : ℚ
  aiAggression : ℚ
  aiReactionDelay : ℚ
deriving DecidableEq

/-- Outcome of one advisory call at the external boundary:
`net` is the result of `await ai.models.generateContent(...)` followed by
reading `response.text` — either a thrown error (missing credentials surfacing
at request time, network failure), or a response whose `text` may be absent —
and `parse` is `JSON.parse`, with `none` for a malformed payload. -/
def advisoryFailure (net : Except String (Option String))
    (parse : String → Option GeminiResponse) : Prop :=
  (∃ e, net = Except.error e) ∨ net = Except.ok none ∨
  (∃ t, net = Except.ok (some t) ∧ parse t = none)

namespace GeminiA

/-- Fallback strategy tuple of `fetchAIStrategy` in
`src/services/geminiService.ts`. -/
def fallback : GeminiResponse :=
  ⟨"System glitch... rebooting tactics...", 1, 0.5, 0.1⟩

/-- Body of the `try` block of `fetchAIStrategy` in
`src/services/geminiService.ts`: await the model response, throw when
`response.text` is empty, then `JSON.parse` it (throwing on malformed
payloads). -/
def tryFetch (net : Except String (Option String))
    (parse : String → Option GeminiResponse) : Except String GeminiResponse :=
  match net with
  | Except.error e => Except.error e
  | Except.ok none => Except.error "No response text received from Gemini."
  | Except.ok (some t) =>
    match parse t with
    | none => Except.error "JSON parse error"
    | some r => Except.ok r

/-- Function `fetchAIStrategy` of `src/services/geminiService.ts`.  The
`new GoogleGenAI({ apiKey: process.env.API_KEY })` construction stands OUTSIDE
the `try` block; its outcome is the parameter `ctor`, whose `Except.error`
case models the synchronous throw of the SDK's browser build when the API key
is missing.  A constructor throw therefore escapes the function as a rejected
promise (`Except.error`), while every failure raised inside the `try` block is
caught and yields the fallback tuple. -/
def fetchAIStrategy (ctor : Except String Unit)
    (net : Except String (Option String))
    (parse : String → Option GeminiResponse) : Except String GeminiResponse :=
  match ctor with
  | Except.error e => Except.error e
  | Except.ok _ =>
    Except.ok
      (match tryFetch net parse with
       | Except.ok r => r
       | Except.error _ => fallback)

end GeminiA

namespace GeminiB

/-- Early-return tuple of `fetchAIStrategy` in `src/unnamed/part_001` when the
API key is missing (`getClient()` returns `null` for an empty key). -/
def fallbackMissingKey : GeminiResponse :=
  ⟨"API Key missing. Using fallback logic.", 1, 0.5, 0.1⟩

/-- Catch-block tuple of `fetchAIStrategy` in `src/unnamed/part_001`. -/
def fallback : GeminiResponse :=
  ⟨"System malfunction... rebooting strategy...", 1, 0.5, 0.1⟩

/-- Body of the `try` block of `fetchAIStrategy` in `src/unnamed/part_001`. -/
def tryFetch (net : Except String (Option String))
    (parse : String → Option GeminiResponse) : Except String GeminiResponse :=
  match net with
  | Except.error e => Except.error e
  | Except.ok none => Except.error "No response text"
  | Except.ok (some t) =>
    match parse t with
    | none => Except.error "JSON parse error"
    | some r => Except.ok r

/-- Function `fetchAIStrategy` of `src/unnamed/part_001`: `apiKey` is
`process.env.API_KEY || ''`; an empty key makes `getClient()` return `null`
and short-circuits to the missing-key tuple, so `new GoogleGenAI` is only ever
invoked with a nonempty key (the browser build's missing-key throw cannot
fire), and every failure inside the `try` block is caught and produces the
catch-block tuple. -/
def fetchAIStrategy (apiKey : String) (net : Except String (Option String))
    (parse : String → Option GeminiResponse) : GeminiResponse :=
  if apiKey = "" then fallbackMissingKey
  else
    match tryFetch net parse with
    | Except.ok r => r
    | Except.error _ => fallback

end GeminiB

/-- Concrete world used to exercise a goal tick: the puck is just above the
top boundary inside the goal mouth and moving up. -/
def puck0 : Entity := ⟨⟨400, -20⟩, 28, ⟨0, -20⟩, 15⟩

/-- Player paddle fixture at its reset position. -/
def player0 : Entity := ⟨⟨400, 1050⟩, 50, ⟨0, 0⟩, 300⟩

/-- AI paddle fixture at its reset position. -/
def ai0 : Entity := ⟨⟨400, 150⟩, 50, ⟨0, 0⟩, 300⟩

/-- World fixture about to register a goal against the AI's (top) goal. -/
def w0 : World := ⟨puck0, player0, ai0, false, none, 0, 0⟩

/-- Fast paddle fixture moving right at `MAX_SPEED`. -/
def paddleC1 : Entity := ⟨⟨400, 600⟩, 50, ⟨40, 0⟩, 300⟩

/-- Resting puck fixture overlapping `paddleC1` horizontally. -/
def puckC1 : Entity := ⟨⟨410, 600⟩, 28, ⟨0, 0⟩, 15⟩

/-- Stationary paddle fixture for the second revision's collision. -/
def pdlC5 : Entity := ⟨⟨400, 600⟩, 50, ⟨0, 0⟩, 300⟩

/-- Puck fixture approaching `pdlC5` head-on along the x axis. -/
def pckC5 : Entity := ⟨⟨410, 600⟩, 28, ⟨-10, 0⟩, 15⟩

/-- Puck fixture whose center coincides with the top-left goal post. -/
def puckC7 : Entity := ⟨⟨260, 0⟩, 28, ⟨3, 4⟩, 15⟩

/-- Paddle fixture for the coincident-centers case. -/
def pdlC7 : Entity := ⟨⟨400, 600⟩, 50, ⟨0, 0⟩, 300⟩

/-- Puck fixture whose center coincides with `pdlC7`. -/
def pckC7 : Entity := ⟨⟨400, 600⟩, 28, ⟨1, 2⟩, 15⟩

/-- Puck fixture in the AI half moving straight down. -/
def pC8 : Entity := ⟨⟨400, 300⟩, 28, ⟨0, 10⟩, 15⟩

/-- AI paddle fixture above `pC8` but within the chase margin. -/
def aC8 : Entity := ⟨⟨400, 200⟩, 50, ⟨0, 0⟩, 300⟩

lemma FRICTION_pos : (0 : ℝ) < FRICTION := by norm_num [FRICTION]

lemma len_nonneg (v : Vector2D) : 0 ≤ len v := Real.sqrt_nonneg _

lemma len_scale (s : ℝ) (v : Vector2D) :
    len ⟨v.x * s, v.y * s⟩ = |s| * len v := by
  simp only [len]
  rw [show v.x * s * (v.x * s) + v.y * s * (v.y * s)
        = s ^ 2 * (v.x * v.x + v.y * v.y) by ring]
  rw [Real.sqrt_mul (sq_nonneg s), Real.sqrt_sq_eq_abs]

lemma clamp_mem (v lo hi : ℝ) (h : lo ≤ hi) :
    lo ≤ clamp v lo hi ∧ clamp v lo hi ≤ hi :=
  ⟨le_min (le_max_right _ _) h, min_le_right _ _⟩

/-- C6: the per-sub-step friction update multiplies the puck velocity by
`FRICTION ^ dt`, so decaying for `dt1` and then `dt2` equals decaying once for
`dt1 + dt2` (total decay over a fixed real-time interval is independent of how
the interval is divided into sub-steps), and for nonnegative `dt` the
post-decay speed never exceeds the pre-decay speed. -/
theorem c6_theorem :
    (∀ (dt1 dt2 : ℝ) (v : Vector2D),
      V1.frictionDecay dt2 (V1.frictionDecay dt1 v) = V1.frictionDecay (dt1 + dt2) v) ∧
    (∀ (dt : ℝ) (v : Vector2D), 0 ≤ dt → len (V1.frictionDecay dt v) ≤ len v) := by
  constructor
  · intro dt1 dt2 v
    simp only [V1.frictionDecay]
    ext
    · show v.x * FRICTION ^ dt1 * FRICTION ^ dt2 = v.x * FRICTION ^ (dt1 + dt2)
      rw [Real.rpow_add FRICTION_pos]; ring
    · show v.y * FRICTION ^ dt1 * FRICTION ^ dt2 = v.y * FRICTION ^ (dt1 + dt2)
      rw [Real.rpow_add FRICTION_pos]; ring
  · intro dt v hdt
    have h0 : (0 : ℝ) ≤ FRICTION ^ dt := Real.rpow_nonneg (le_of_lt FRICTION_pos) dt
    have h1 : FRICTION ^ dt ≤ 1 :=
      Real.rpow_le_one (by norm_num [FRICTION]) (by norm_num [FRICTION]) hdt
    calc len (V1.frictionDecay dt v) = |FRICTION ^ dt| * len v := len_scale _ v
      _ = FRICTION ^ dt * len v := by rw [abs_of_nonneg h0]
      _ ≤ 1 * len v := mul_le_mul_of_nonneg_right h1 (len_nonneg v)
      _ = len v := one_mul _

/-- C6 witness: decaying for one 60 fps frame does not increase the speed. -/
theorem c6_witness :
    (0 : ℝ) ≤ 1 ∧ len (V1.frictionDecay 1 ⟨1, 0⟩) ≤ len ⟨1, 0⟩ :=
  ⟨by norm_num, c6_theorem.2 1 ⟨1, 0⟩ (by norm_num)⟩

/-- C10: inside each sub-step the puck velocity is, immediately after the
friction decay and before the max-speed clamp, snapped componentwise: any
component whose absolute value is below `0.05` becomes exactly `0`, each axis
independently, so a slow puck comes to a complete rest instead of decaying
asymptotically. -/
theorem c10_theorem :
    (∀ (dt : ℝ) (p : Entity),
      (V1.integratePuck dt p).velocity
        = V1.clampSpeed (V1.snapSlow (V1.frictionDecay dt p.velocity))) ∧
    (∀ (dt : ℝ) (v : Vector2D),
      V1.snapSlow (V1.frictionDecay dt v)
        = ⟨if |v.x * FRICTION ^ dt| < 0.05 then 0 else v.x * FRICTION ^ dt,
           if |v.y * FRICTION ^ dt| < 0.05 then 0 else v.y * FRICTION ^ dt⟩) ∧
    (∀ (dt : ℝ) (v : Vector2D),
      |v.x * FRICTION ^ dt| < 0.05 → |v.y * FRICTION ^ dt| < 0.05 →
      V1.snapSlow (V1.frictionDecay dt v) = ⟨0, 0⟩) := by
  refine ⟨fun dt p => rfl, fun dt v => rfl, fun dt v h1 h2 => ?_⟩
  simp only [V1.frictionDecay, V1.snapSlow]
  rw [if_pos h1, if_pos h2]

/-- C10 witness: a puck moving slowly on both axes is stopped outright. -/
theorem c10_witness :
    |(0.04 : ℝ) * FRICTION ^ (1 : ℝ)| < 0.05 ∧
    V1.snapSlow (V1.frictionDecay 1 ⟨0.04, 0.04⟩) = ⟨0, 0⟩ := by
  have h : |(0.04 : ℝ) * FRICTION ^ (1 : ℝ)| < 0.05 := by
    rw [Real.rpow_one, abs_of_nonneg (by norm_num [FRICTION])]
    norm_num [FRICTION]
  exact ⟨h, c10_theorem.2.2 1 ⟨0.04, 0.04⟩ h h⟩

/-- C1 (amended): the max-speed clamp of `updatePhysics` bounds the puck speed
by `MAX_SPEED` and only ever rescales the velocity uniformly, multiplying both
components by one positive factor at most `1`, so the direction is preserved.
(The bound does not survive the paddle collision resolved later in the same
sub-step, see the counterexample.) -/
theorem c1_theorem (v : Vector2D) :
    len (V1.clampSpeed v) ≤ MAX_SPEED ∧
    ∃ s : ℝ, 0 < s ∧ s ≤ 1 ∧ V1.clampSpeed v = ⟨v.x * s, v.y * s⟩ := by
  unfold V1.clampSpeed
  by_cases h : len v > MAX_SPEED
  · rw [if_pos h]
    have hMS : (0 : ℝ) < MAX_SPEED := by norm_num [MAX_SPEED]
    have hlv : 0 < len v := lt_trans hMS h
    have hs0 : 0 < MAX_SPEED / len v := div_pos hMS hlv
    constructor
    · rw [len_scale, abs_of_nonneg (le_of_lt hs0), div_mul_cancel₀ _ (ne_of_gt hlv)]
    · exact ⟨MAX_SPEED / len v, hs0, (div_le_one hlv).mpr (le_of_lt h), rfl⟩
  · rw [if_neg h]
    refine ⟨le_of_not_lt h, 1, one_pos, le_refl 1, ?_⟩
    ext <;> simp

/-- C9 (code divergence): in the first revision the `GoogleGenAI` construction
sits outside the `try` block, so a synchronous constructor throw — the SDK's
browser build throws when the API key is missing — escapes `fetchAIStrategy`
as a rejected promise instead of resolving to the default tuple; every failure
raised inside that revision's `try` block (network failure, empty response
text, malformed payload) IS caught and resolves to the fixed defaults
`(1.0, 0.5, 0.1)` with the fallback commentary.  The second revision never
throws: a missing key short-circuits to its missing-key tuple (its
`getClient` constructs the client only with a nonempty key) and any advisory
failure resolves to its default tuple. -/
theorem c9_theorem (apiKey : String) (err : String)
    (net : Except String (Option String))
    (parse : String → Option GeminiResponse) :
    GeminiA.fetchAIStrategy (Except.error err) net parse = Except.error err ∧
    (advisoryFailure net parse →
      GeminiA.fetchAIStrategy (Except.ok ()) net parse = Except.ok GeminiA.fallback ∧
      GeminiA.fallback.aiSpeed = 1 ∧ GeminiA.fallback.aiAggression = 0.5 ∧
      GeminiA.fallback.aiReactionDelay = 0.1) ∧
    (advisoryFailure net parse →
      (GeminiB.fetchAIStrategy apiKey net parse).aiSpeed = 1 ∧
      (GeminiB.fetchAIStrategy apiKey net parse).aiAggression = 0.5 ∧
      (GeminiB.fetchAIStrategy apiKey net parse).aiReactionDelay = 0.1) ∧
    (apiKey = "" →
      GeminiB.fetchAIStrategy apiKey net parse = GeminiB.fallbackMissingKey) := by
  refine ⟨rfl, fun hfail => ?_, fun hfail => ?_, fun hk => ?_⟩
  · have hA : ∃ e, GeminiA.tryFetch net parse = Except.error e := by
      rcases hfail with ⟨e, he⟩ | he | ⟨t, ht, hp⟩
      · exact ⟨e, by rw [he]; rfl⟩
      · exact ⟨_, by rw [he]; rfl⟩
      · exact ⟨"JSON parse error", by rw [ht]; simp [GeminiA.tryFetch, hp]⟩
    obtain ⟨eA, heA⟩ := hA
    exact ⟨by simp [GeminiA.fetchAIStrategy, heA], rfl, rfl, rfl⟩
  · have hB : ∃ e, GeminiB.tryFetch net parse = Except.error e := by
      rcases hfail with ⟨e, he⟩ | he | ⟨t, ht, hp⟩
      · exact ⟨e, by rw [he]; rfl⟩
      · exact ⟨_, by rw [he]; rfl⟩
      · exact ⟨"JSON parse error", by rw [ht]; simp [GeminiB.tryFetch, hp]⟩
    obtain ⟨eB, heB⟩ := hB
    by_cases hk : apiKey = ""
    · simp [GeminiB.fetchAIStrategy, hk, GeminiB.fallbackMissingKey]
    · simp [GeminiB.fetchAIStrategy, hk, heB, GeminiB.fallback]
  · simp [GeminiB.fetchAIStrategy, hk]

/-- C9 witness: a missing-key constructor throw escapes revision A unhandled,
while under the same failing call revision A's `try` block (once the
constructor survived) and revision B both resolve to their fallback tuples. -/
theorem c9_witness :
    GeminiA.fetchAIStrategy
        (Except.error "An API Key must be set when running in a browser")
        (Except.error "network failure") (fun _ => none)
      = Except.error "An API Key must be set when running in a browser" ∧
    advisoryFailure (Except.error "network failure") (fun _ => none) ∧
    GeminiA.fetchAIStrategy (Except.ok ()) (Except.error "network failure") (fun _ => none)
      = Except.ok GeminiA.fallback ∧
    GeminiB.fetchAIStrategy "" (Except.error "network failure") (fun _ => none)
      = GeminiB.fallbackMissingKey := by
  have hfail : advisoryFailure (Except.error "network failure") (fun _ => none) :=
    Or.inl ⟨_, rfl⟩
  have h := c9_theorem "" "An API Key must be set when running in a browser"
    (Except.error "network failure") (fun _ => none)
  exact ⟨h.1, hfail, (h.2.1 hfail).1, h.2.2.2 rfl⟩

/-- C3 (code divergence): entering RESETTING zeroes all three velocities,
snaps the entities to their canonical reset points, sets the input target to
the player's reset position, and every physics tick run while the flag is up
leaves the state unchanged; after the delay the flag clears and the puck gets
a nonzero serve velocity — but when the player scores (into the AI's top
goal) its vertical component is `+8`, i.e. directed toward the bottom half of
the scorer, although the code's own comment says "Serve to the LOSER" and the
spec says toward the side that conceded. -/
theorem c3_theorem (w : World) (rand : ℝ) (dt : ℝ) :
    (V1.resetPositions Scorer.player w).resetting = true ∧
    (V1.resetPositions Scorer.player w).puck.velocity = ⟨0, 0⟩ ∧
    (V1.resetPositions Scorer.player w).player.velocity = ⟨0, 0⟩ ∧
    (V1.resetPositions Scorer.player w).ai.velocity = ⟨0, 0⟩ ∧
    (V1.resetPositions Scorer.player w).puck.x = 400 ∧
    (V1.resetPositions Scorer.player w).puck.y = 600 ∧
    (V1.resetPositions Scorer.player w).player.x = 400 ∧
    (V1.resetPositions Scorer.player w).player.y = 1050 ∧
    (V1.resetPositions Scorer.player w).ai.x = 400 ∧
    (V1.resetPositions Scorer.player w).ai.y = 150 ∧
    (V1.resetPositions Scorer.player w).input = some ⟨400, 1050⟩ ∧
    V1.updatePhysics (V1.resetPositions Scorer.player w) dt
      = some (V1.resetPositions Scorer.player w, [], false) ∧
    (V1.serveRelease Scorer.player rand (V1.resetPositions Scorer.player w)).resetting = false ∧
    (V1.serveRelease Scorer.player rand (V1.resetPositions Scorer.player w)).puck.velocity.x
      = rand * 6 - 3 ∧
    (V1.serveRelease Scorer.player rand (V1.resetPositions Scorer.player w)).puck.velocity.y = 8 ∧
    0 < (V1.serveRelease Scorer.player rand (V1.resetPositions Scorer.player w)).puck.velocity.y := by
  refine ⟨rfl, rfl, rfl, rfl, ?_, ?_, ?_, ?_, ?_, ?_, ?_, ?_, rfl, rfl, ?_, ?_⟩
  · norm_num [V1.resetPositions, CANVAS_WIDTH]
  · norm_num [V1.resetPositions, CANVAS_HEIGHT]
  · norm_num [V1.resetPositions, CANVAS_WIDTH]
  · norm_num [V1.resetPositions, CANVAS_HEIGHT]
  · norm_num [V1.resetPositions, CANVAS_WIDTH]
  · norm_num [V1.resetPositions]
  · simp only [V1.resetPositions]
    norm_num [CANVAS_WIDTH, CANVAS_HEIGHT]
  · simp only [V1.updatePhysics]
    rw [if_pos (show (V1.resetPositions Scorer.player w).resetting = true from rfl)]
  · show (if Scorer.player = Scorer.player then (1 : ℝ) else -1) * 8 = 8
    rw [if_pos rfl]; norm_num
  · show (0 : ℝ) < (if Scorer.player = Scorer.player then (1 : ℝ) else -1) * 8
    rw [if_pos rfl]; norm_num

/-- C8 (amended): when the puck is in the AI's half, the second revision's
`updateAI` targets the recovery anchor `(400, 100)` if the puck is more than
`10` above the paddle, and otherwise targets the puck led only horizontally by
`velocity.x * (aggression * 10)`, with the fixed vertical offset `+20` and no
vertical lead. -/
theorem c8_theorem (p a : Entity) (aggression : ℝ) (h : p.y < CANVAS_HEIGHT / 2) :
    (p.y < a.y - 10 → V2.updateAITarget p a aggression = ⟨CANVAS_WIDTH / 2, 100⟩) ∧
    (¬ p.y < a.y - 10 →
      V2.updateAITarget p a aggression
        = ⟨p.x + p.velocity.x * (aggression * 10), p.y + 20⟩) := by
  constructor
  · intro h2
    simp only [V2.updateAITarget]
    rw [if_pos h, if_pos h2]
  · intro h2
    simp only [V2.updateAITarget]
    rw [if_pos h, if_neg h2]

/-- C8 counterexample: for a puck moving straight down in the AI half the
code's target keeps the vertical component `puck.y + 20 = 320`, while the
claim's vector-valued lead (`position + velocity * (aggression * 10)` plus the
vertical offset) would give `370`; the predictive lead is horizontal only. -/
theorem c8_counterexample :
    V2.updateAITarget pC8 aC8 0.5 = ⟨400, 320⟩ ∧
    updateAITargetClaim pC8 aC8 0.5 = ⟨400, 370⟩ ∧
    (Vector2D.mk 400 320) ≠ ⟨400, 370⟩ := by
  refine ⟨?_, ?_, by simp only [ne_eq, Vector2D.mk.injEq]; norm_num⟩
  · simp only [V2.updateAITarget, pC8, aC8]
    rw [if_pos (by norm_num [CANVAS_HEIGHT]), if_neg (by norm_num)]
    simp only [Vector2D.mk.injEq]
    norm_num
  · simp only [updateAITargetClaim, pC8, aC8]
    rw [if_pos (by norm_num [CANVAS_HEIGHT]), if_neg (by norm_num)]
    simp only [Vector2D.mk.injEq]
    norm_num

/-- C8 witness: the amended strike-targeting applied to the fixture. -/
theorem c8_witness :
    pC8.y < CANVAS_HEIGHT / 2 ∧ ¬ pC8.y < aC8.y - 10 ∧
    V2.updateAITarget pC8 aC8 0.5
      = ⟨pC8.x + pC8.velocity.x * (0.5 * 10), pC8.y + 20⟩ := by
  have h : pC8.y < CANVAS_HEIGHT / 2 := by norm_num [pC8, CANVAS_HEIGHT]
  have h2 : ¬ pC8.y < aC8.y - 10 := by norm_num [pC8, aC8]
  exact ⟨h, h2, (c8_theorem pC8 aC8 0.5 h).2 h2⟩

lemma ip0_x : (V1.integratePuck 1 puck0).x = 400 := by
  norm_num [V1.integratePuck, V1.movePuck, puck0]

lemma ip0_y : (V1.integratePuck 1 puck0).y = -40 := by
  norm_num [V1.integratePuck, V1.movePuck, puck0]

lemma ip0_r : (V1.integratePuck 1 puck0).radius = 28 := rfl

lemma updatePhysics_w0 :
    V1.updatePhysics w0 1
      = some (V1.resetPositions Scorer.player { w0 with puck := V1.integratePuck 1 w0.puck },
              [⟨1, 0, Scorer.player⟩], true) := by
  have hy : (V1.integratePuck 1 w0.puck).y < -(V1.integratePuck 1 w0.puck).radius := by
    show (V1.integratePuck 1 puck0).y < -(V1.integratePuck 1 puck0).radius
    rw [ip0_y, ip0_r]; norm_num
  have hx1 : (V1.integratePuck 1 w0.puck).x > GOAL_LEFT_X := by
    show (V1.integratePuck 1 puck0).x > GOAL_LEFT_X
    rw [ip0_x]; norm_num [GOAL_LEFT_X, CANVAS_WIDTH, GOAL_WIDTH]
  have hx2 : (V1.integratePuck 1 w0.puck).x < GOAL_RIGHT_X := by
    show (V1.integratePuck 1 puck0).x < GOAL_RIGHT_X
    rw [ip0_x]; norm_num [GOAL_RIGHT_X, CANVAS_WIDTH, GOAL_WIDTH]
  simp only [V1.updatePhysics]
  rw [if_neg (show ¬ w0.resetting = true by decide)]
  rw [if_pos ⟨hy, hx1, hx2⟩]
  rfl

/-- C2 (amended): when a sub-step carries the puck across the TOP boundary by
more than its radius inside the goal mouth, `onScoreUpdate` is invoked exactly
once, synchronously and computed from the pre-reset scores, with the PLAYER's
score incremented by exactly 1 and the AI's score unchanged, tagged
`'player'`, and the simulation enters the RESETTING phase. -/
theorem c2_theorem (w : World) (dt : ℝ) (hres : w.resetting = false)
    (hy : (V1.integratePuck dt w.puck).y < -(V1.integratePuck dt w.puck).radius)
    (hx1 : (V1.integratePuck dt w.puck).x > GOAL_LEFT_X)
    (hx2 : (V1.integratePuck dt w.puck).x < GOAL_RIGHT_X) :
    V1.updatePhysics w dt
      = some (V1.resetPositions Scorer.player { w with puck := V1.integratePuck dt w.puck },
              [⟨w.scorePlayer + 1, w.scoreAi, Scorer.player⟩], true) ∧
    (V1.resetPositions Scorer.player { w with puck := V1.integratePuck dt w.puck }).resetting
      = true := by
  constructor
  · simp only [V1.updatePhysics]
    rw [if_neg (show ¬ w.resetting = true by simp [hres])]
    rw [if_pos ⟨hy, hx1, hx2⟩]
  · rfl

/-- C2 counterexample: a puck crossing the TOP boundary inside the goal mouth
makes the code emit `onScoreUpdate(player + 1, ai, 'player')` — the event
`⟨1, 0, player⟩` from scores `(0, 0)` — not the AI-incremented event
`⟨0, 1, ai⟩` that the claim demands for a top-boundary crossing. -/
theorem c2_counterexample :
    V1.updatePhysics w0 1
      = some (V1.resetPositions Scorer.player { w0 with puck := V1.integratePuck 1 w0.puck },
              [⟨1, 0, Scorer.player⟩], true) ∧
    (⟨1, 0, Scorer.player⟩ : ScoreEvent) ≠ ⟨0, 1, Scorer.ai⟩ :=
  ⟨updatePhysics_w0, by decide⟩

/-- C2 witness: the amended goal bookkeeping at the concrete goal tick. -/
theorem c2_witness :
    w0.resetting = false ∧
    (V1.integratePuck 1 w0.puck).y < -(V1.integratePuck 1 w0.puck).radius ∧
    (V1.integratePuck 1 w0.puck).x > GOAL_LEFT_X ∧
    (V1.integratePuck 1 w0.puck).x < GOAL_RIGHT_X ∧
    V1.updatePhysics w0 1
      = some (V1.resetPositions Scorer.player { w0 with puck := V1.integratePuck 1 w0.puck },
              [⟨1, 0, Scorer.player⟩], true) := by
  have hy : (V1.integratePuck 1 w0.puck).y < -(V1.integratePuck 1 w0.puck).radius := by
    show (V1.integratePuck 1 puck0).y < -(V1.integratePuck 1 puck0).radius
    rw [ip0_y, ip0_r]; norm_num
  have hx1 : (V1.integratePuck 1 w0.puck).x > GOAL_LEFT_X := by
    show (V1.integratePuck 1 puck0).x > GOAL_LEFT_X
    rw [ip0_x]; norm_num [GOAL_LEFT_X, CANVAS_WIDTH, GOAL_WIDTH]
  have hx2 : (V1.integratePuck 1 w0.puck).x < GOAL_RIGHT_X := by
    show (V1.integratePuck 1 puck0).x < GOAL_RIGHT_X
    rw [ip0_x]; norm_num [GOAL_RIGHT_X, CANVAS_WIDTH, GOAL_WIDTH]
  exact ⟨rfl, hy, hx1, hx2, (c2_theorem w0 1 rfl hy hx1 hx2).1⟩

/-- C4: on every non-resetting tick that completes, both paddles end the clamp
step inside their own half of the rink: the player paddle's center between
`650` and `1150` vertically (so its disc of radius `PADDLE_RADIUS` stays at or
below the `y = 600` midline) and the AI paddle's center between `50` and `550`
(disc at or above zero and at or below the midline), both within the rink's
width inset by the radius; neither paddle ever crosses into the opposing
half. -/
theorem c4_theorem (w : World) (dt : ℝ) (r : World × List ScoreEvent × Bool)
    (hpr : w.player.radius = PADDLE_RADIUS) (har : w.ai.radius = PADDLE_RADIUS)
    (hres : w.resetting = false) (h : V1.updatePhysics w dt = some r) :
    (50 ≤ r.1.player.x ∧ r.1.player.x ≤ 750 ∧ 650 ≤ r.1.player.y ∧ r.1.player.y ≤ 1150 ∧
      600 ≤ r.1.player.y - PADDLE_RADIUS) ∧
    (50 ≤ r.1.ai.x ∧ r.1.ai.x ≤ 750 ∧ 50 ≤ r.1.ai.y ∧ r.1.ai.y ≤ 550 ∧
      r.1.ai.y + PADDLE_RADIUS ≤ 600) := by
  simp only [V1.updatePhysics] at h
  rw [if_neg (show ¬ w.resetting = true by simp [hres])] at h
  split_ifs at h with h1 h2
  · rw [Option.some_inj] at h
    subst h
    norm_num [V1.resetPositions, CANVAS_WIDTH, CANVAS_HEIGHT, PADDLE_RADIUS]
  · rw [Option.some_inj] at h
    subst h
    norm_num [V1.resetPositions, CANVAS_WIDTH, CANVAS_HEIGHT, PADDLE_RADIUS]
  · rw [Option.map_eq_some'] at h
    obtain ⟨p3, hp3, hf⟩ := h
    subst hf
    simp only [V1.constrainEntity, hpr, har, PADDLE_RADIUS, CANVAS_WIDTH, CANVAS_HEIGHT]
    norm_num
    have A := clamp_mem w.player.x 50 750 (by norm_num)
    have B := clamp_mem w.player.y 650 1150 (by norm_num)
    have C := clamp_mem w.ai.x 50 750 (by norm_num)
    have D := clamp_mem w.ai.y 50 550 (by norm_num)
    refine ⟨⟨?_, ?_, ?_, ?_, ?_⟩, ?_, ?_, ?_, ?_, ?_⟩ <;>
      linarith [A.1, A.2, B.1, B.2, C.1, C.2, D.1, D.2]

/-- C4 witness: the paddle bounds at the concrete goal tick. -/
theorem c4_witness :
    w0.player.radius = PADDLE_RADIUS ∧ w0.ai.radius = PADDLE_RADIUS ∧
    w0.resetting = false ∧
    ((50 ≤ (V1.resetPositions Scorer.player { w0 with puck := V1.integratePuck 1 w0.puck }).player.x ∧
      (V1.resetPositions Scorer.player { w0 with puck := V1.integratePuck 1 w0.puck }).player.x ≤ 750 ∧
      650 ≤ (V1.resetPositions Scorer.player { w0 with puck := V1.integratePuck 1 w0.puck }).player.y ∧
      (V1.resetPositions Scorer.player { w0 with puck := V1.integratePuck 1 w0.puck }).player.y ≤ 1150 ∧
      600 ≤ (V1.resetPositions Scorer.player { w0 with puck := V1.integratePuck 1 w0.puck }).player.y - PADDLE_RADIUS) ∧
     (50 ≤ (V1.resetPositions Scorer.player { w0 with puck := V1.integratePuck 1 w0.puck }).ai.x ∧
      (V1.resetPositions Scorer.player { w0 with puck := V1.integratePuck 1 w0.puck }).ai.x ≤ 750 ∧
      50 ≤ (V1.resetPositions Scorer.player { w0 with puck := V1.integratePuck 1 w0.puck }).ai.y ∧
      (V1.resetPositions Scorer.player { w0 with puck := V1.integratePuck 1 w0.puck }).ai.y ≤ 550 ∧
      (V1.resetPositions Scorer.player { w0 with puck := V1.integratePuck 1 w0.puck }).ai.y + PADDLE_RADIUS ≤ 600)) :=
  ⟨rfl, rfl, rfl, c4_theorem w0 1 _ rfl rfl rfl updatePhysics_w0⟩

lemma sqrt_hundred : Real.sqrt 100 = 10 := by
  rw [show (100 : ℝ) = 10 ^ 2 by norm_num, Real.sqrt_sq (by norm_num : (0 : ℝ) ≤ 10)]

lemma dC5 : V2.distanceOf pdlC5 pckC5 = 10 := by
  simp only [V2.distanceOf, pdlC5, pckC5]
  rw [show ((410 : ℝ) - 400) * ((410 : ℝ) - 400) + ((600 : ℝ) - 600) * ((600 : ℝ) - 600)
        = 100 by norm_num]
  exact sqrt_hundred

lemma vanC5 : V2.velAlongNormal pdlC5 pckC5 = -10 := by
  simp only [V2.velAlongNormal]
  rw [dC5]
  simp only [pdlC5, pckC5]
  norm_num

lemma impC5 : V2.impulseOf pdlC5 pckC5 = 2150 / 7 := by
  simp only [V2.impulseOf]
  rw [vanC5]
  simp only [V2.bounce, pdlC5, pckC5]
  norm_num

/-- C5 (amended): in the second revision's paddle-puck resolution, two
overlapping circles with nonzero distance behave as follows: if the relative
velocity along the normal is positive (already separating) no impulse is
applied and both velocities are left unchanged (only the position correction
runs); otherwise the impulse scalar uses the restitution `bounce = 1.15 > 1`
scaled by the reduced mass of the pair, and the impulse is applied to the PUCK
only (scaled by the puck's inverse mass, then capped at `MAX_SPEED`) — the
paddle's velocity is never modified, it does not recoil. -/
theorem c5_theorem (pdl pck : Entity)
    (h1 : V2.distanceOf pdl pck < pdl.radius + pck.radius)
    (h2 : V2.distanceOf pdl pck ≠ 0) :
    1 < V2.bounce ∧
    (0 < V2.velAlongNormal pdl pck →
      V2.resolvePaddleCollision pdl pck = some (pdl, V2.posCorrect pdl pck)) ∧
    (¬ 0 < V2.velAlongNormal pdl pck →
      V2.resolvePaddleCollision pdl pck
        = some (pdl, { V2.posCorrect pdl pck with velocity :=
            (V2.capMax ⟨pck.velocity.x + V2.impulseOf pdl pck / pck.mass *
                ((pck.x - pdl.x) / V2.distanceOf pdl pck),
              pck.velocity.y + V2.impulseOf pdl pck / pck.mass *
                ((pck.y - pdl.y) / V2.distanceOf pdl pck)⟩) })) := by
  refine ⟨by norm_num [V2.bounce], fun hs => ?_, fun hs => ?_⟩
  · simp only [V2.resolvePaddleCollision]
    rw [if_pos h1, if_neg h2, if_pos hs]
  · simp only [V2.resolvePaddleCollision]
    rw [if_pos h1, if_neg h2, if_neg hs]

/-- C5 counterexample: for a head-on approach the code leaves the paddle's
velocity exactly unchanged (`⟨0, 0⟩`), while the claim's inverse-mass split
would make the paddle recoil with x-velocity `-43/42 ≠ 0`. -/
theorem c5_counterexample :
    (V2.resolvePaddleCollision pdlC5 pckC5).map (fun q => q.1.velocity) = some ⟨0, 0⟩ ∧
    (resolvePaddleCollisionClaim pdlC5 pckC5).map (fun q => q.1.velocity)
      = some ⟨-43 / 42, 0⟩ ∧
    (Vector2D.mk 0 0) ≠ ⟨-43 / 42, 0⟩ := by
  have h1 : V2.distanceOf pdlC5 pckC5 < pdlC5.radius + pckC5.radius := by
    rw [dC5]; norm_num [pdlC5, pckC5]
  have h2 : V2.distanceOf pdlC5 pckC5 ≠ 0 := by rw [dC5]; norm_num
  have h3 : ¬ 0 < V2.velAlongNormal pdlC5 pckC5 := by rw [vanC5]; norm_num
  refine ⟨?_, ?_, by simp only [ne_eq, Vector2D.mk.injEq]; norm_num⟩
  · simp only [V2.resolvePaddleCollision]
    rw [if_pos h1, if_neg h2, if_neg h3]
    rfl
  · simp only [resolvePaddleCollisionClaim]
    rw [if_pos h1, if_neg h2, if_neg h3]
    simp only [Option.map_some']
    rw [Option.some_inj]
    rw [impC5, dC5]
    simp only [pdlC5, pckC5, Vector2D.mk.injEq]
    norm_num

/-- C5 witness: the amended collision law at the head-on fixture. -/
theorem c5_witness :
    V2.distanceOf pdlC5 pckC5 < pdlC5.radius + pckC5.radius ∧
    V2.distanceOf pdlC5 pckC5 ≠ 0 ∧
    ¬ 0 < V2.velAlongNormal pdlC5 pckC5 ∧
    V2.resolvePaddleCollision pdlC5 pckC5
      = some (pdlC5, { V2.posCorrect pdlC5 pckC5 with velocity :=
          (V2.capMax ⟨pckC5.velocity.x + V2.impulseOf pdlC5 pckC5 / pckC5.mass *
              ((pckC5.x - pdlC5.x) / V2.distanceOf pdlC5 pckC5),
            pckC5.velocity.y + V2.impulseOf pdlC5 pckC5 / pckC5.mass *
              ((pckC5.y - pdlC5.y) / V2.distanceOf pdlC5 pckC5)⟩) }) := by
  have h1 : V2.distanceOf pdlC5 pckC5 < pdlC5.radius + pckC5.radius := by
    rw [dC5]; norm_num [pdlC5, pckC5]
  have h2 : V2.distanceOf pdlC5 pckC5 ≠ 0 := by rw [dC5]; norm_num
  have h3 : ¬ 0 < V2.velAlongNormal pdlC5 pckC5 := by rw [vanC5]; norm_num
  exact ⟨h1, h2, h3, (c5_theorem pdlC5 pckC5 h1 h2).2.2 h3⟩

/-- C7: the zero-distance (fully coincident centers) case is NOT guarded: with
the puck centered exactly on a goal post, `checkCircleCollision` takes the
collision branch and divides by the zero distance (JavaScript `0/0 = NaN`,
modelled as `none`), and the second revision's `resolvePaddleCollision` does
the same for coincident paddle and puck; no fallback normal exists.  (Only the
first revision's paddle collision is incidentally safe, via
`Math.atan2(0, 0) = 0`.) -/
theorem c7_theorem :
    V1.checkCircleCollision puckC7 GOAL_LEFT_X 0 POST_RADIUS = none ∧
    V2.resolvePaddleCollision pdlC7 pckC7 = none := by
  constructor
  · simp only [V1.checkCircleCollision, puckC7, GOAL_LEFT_X, CANVAS_WIDTH, GOAL_WIDTH]
    rw [show ((260 : ℝ) - (800 - 280) / 2) * ((260 : ℝ) - (800 - 280) / 2) +
          ((0 : ℝ) - 0) * ((0 : ℝ) - 0) = 0 by norm_num]
    rw [Real.sqrt_zero]
    rw [if_pos (by norm_num [POST_RADIUS] : (0 : ℝ) < 28 + POST_RADIUS)]
    rw [if_pos rfl]
  · simp only [V2.resolvePaddleCollision, V2.distanceOf, pdlC7, pckC7]
    rw [show ((400 : ℝ) - 400) * ((400 : ℝ) - 400) +
          ((600 : ℝ) - 600) * ((600 : ℝ) - 600) = 0 by norm_num]
    rw [Real.sqrt_zero]
    rw [if_pos (by norm_num : (0 : ℝ) < 50 + 28)]
    rw [if_pos rfl]

/-- C1 counterexample: the paddle collision is resolved AFTER the max-speed
clamp in the same sub-step, and injects speed above `MAX_SPEED`: a paddle
moving at speed `40` striking a resting puck head-on leaves the puck at speed
`1600/21 ≈ 76.2 > 40 = MAX_SPEED` immediately after the resolution. -/
theorem c1_counterexample :
    MAX_SPEED < len (V1.resolvePaddleCollision paddleC1 puckC1).velocity := by
  have hd : dist puckC1.toVector2D paddleC1.toVector2D = 10 := by
    simp only [dist, puckC1, paddleC1]
    rw [show ((400 : ℝ) - 410) ^ 2 + ((600 : ℝ) - 600) ^ 2 = 100 by norm_num]
    exact sqrt_hundred
  have hn : V1.normalOf (puckC1.x - paddleC1.x) (puckC1.y - paddleC1.y) = (1, 0) := by
    simp only [V1.normalOf, puckC1, paddleC1]
    rw [if_neg (by norm_num)]
    rw [show ((410 : ℝ) - 400) * ((410 : ℝ) - 400) +
          ((600 : ℝ) - 600) * ((600 : ℝ) - 600) = 100 by norm_num]
    rw [sqrt_hundred]
    norm_num
  have hlen : len ⟨(1600 : ℝ) / 21, 0⟩ = 1600 / 21 := by
    simp only [len]
    rw [show (1600 : ℝ) / 21 * ((1600 : ℝ) / 21) + 0 * 0 = (1600 / 21) ^ 2 by ring]
    exact Real.sqrt_sq (by norm_num)
  have hval : (V1.resolvePaddleCollision paddleC1 puckC1).velocity = ⟨1600 / 21, 0⟩ := by
    simp only [V1.resolvePaddleCollision, hd, hn]
    rw [if_pos (by norm_num [puckC1, paddleC1] : (10 : ℝ) < puckC1.radius + paddleC1.radius)]
    simp only [V1.rotateCS, puckC1, paddleC1]
    norm_num [hlen]
  rw [hval, hlen]
  norm_num [MAX_SPEED]

end

end AirHockey
